import Mathlib

/-!
Verification development for the EcoLyon image-generator tools
(`src/GEN/incity_generator.py` and `src/GEN/lyon_generator.py`).

The two programs are GUI front-ends that dispatch image-generation tasks:
each task is a `(filename, prompt fragment)` pair; a trigger checks two
preconditions (a reference image is loaded, the credential field is
non-blank after stripping), then starts a background thread running
`generate_task`, which composes the final prompt, creates the output
directory, calls the external generation client and persists or logs the
result.  This file embeds those functions shallowly: GUI widgets become an
`AppState`, the effects they perform become an explicit `Event` trace, and
the external collaborators (client construction, the generation call, the
filesystem, the PIL `as_image` accessor) become a `GenEnv` record of
outcomes, one per fallible call site that the Python code itself guards.
-/

/- ### Model of Python `base64.b64decode` (used at incity line 171 / lyon line 166) -/

/-- Value of one base64 alphabet character, `none` for a non-alphabet character. -/
def b64Val (c : Char) : Option Nat :=
  if ('A' ≤ c ∧ c ≤ 'Z') then some (c.toNat - 65)
  else if ('a' ≤ c ∧ c ≤ 'z') then some (c.toNat - 71)
  else if ('0' ≤ c ∧ c ≤ '9') then some (c.toNat + 4)
  else if c = '+' then some 62
  else if c = '/' then some 63
  else none

/-- Decode one base64 quantum of four characters, honouring trailing padding. -/
def b64Group : List Char → Option (List Nat)
  | [a, b, '=', '='] => do
      let va ← b64Val a
      let vb ← b64Val b
      pure [va * 4 + vb / 16]
  | [a, b, c, '='] => do
      let va ← b64Val a
      let vb ← b64Val b
      let vc ← b64Val c
      pure [va * 4 + vb / 16, (vb % 16) * 16 + vc / 4]
  | [a, b, c, d] => do
      let va ← b64Val a
      let vb ← b64Val b
      let vc ← b64Val c
      let vd ← b64Val d
      pure [va * 4 + vb / 16, (vb % 16) * 16 + vc / 4, (vc % 4) * 64 + vd]
  | _ => none

/-- Decode a list of base64 characters four at a time; padding may only end the data. -/
def b64Chunks : List Char → Option (List Nat)
  | [] => some []
  | a :: b :: c :: d :: rest => do
      let g ← b64Group [a, b, c, d]
      if rest.isEmpty ∨ (c ≠ '=' ∧ d ≠ '=') then
        let tail ← b64Chunks rest
        pure (g ++ tail)
      else none
  | _ => none

/-- Model of Python `base64.b64decode`: characters outside the alphabet are
discarded before decoding (the library default), a malformed remainder makes the
call raise, modelled as `none`. -/
def base64Decode (s : String) : Option (List Nat) :=
  b64Chunks (s.data.filter (fun c => (b64Val c).isSome ∨ c = '='))

/- ### Model of Python `str.strip` -/

/-- Drop leading whitespace characters. -/
def dropLeadingWs : List Char → List Char
  | [] => []
  | c :: cs => if c.isWhitespace then dropLeadingWs cs else c :: cs

/-- Model of Python `str.strip()`: remove whitespace from both ends. -/
def pyStrip (s : String) : String :=
  ⟨(dropLeadingWs (dropLeadingWs s.data.reverse).reverse)⟩

/- ### Prompt compositors (incity lines 125-131, lyon lines 110-115) -/

/-- First fixed piece of the incity prompt template (incity line 126). -/
def incity_s1 : String :=
  "Using the provided image of the Incity tower in Lyon, modify ONLY the atmosphere and lighting. "

/-- Fixed trailing piece of the incity prompt template (incity lines 128-130,
adjacent string literals concatenated). -/
def incity_tail : String :=
  "CRITICAL: Keep the EXACT same tower geometry, proportions, camera angle, and claymorphism 3D style. The tower structure, windows pattern, and architectural details must remain IDENTICAL. Only change: sky color, lighting direction, weather effects, and LED colors on the tower facade."

/-- The incity `base_prompt` composition (incity lines 125-131): the task
fragment is substituted between the fixed opening sentence and the fixed
preservation text. -/
def incity_base_prompt (prompt_details : String) : String :=
  incity_s1 ++ prompt_details ++ ". " ++ incity_tail

/-- First fixed piece of the lyon prompt template (lyon line 111). -/
def lyon_s1 : String :=
  "Using the provided image of Lyon city, modify the scene to match this weather condition: "

/-- Fixed trailing piece of the lyon prompt template (lyon lines 113-114). -/
def lyon_tail : String :=
  "Keep the exact same buildings geometry, camera angle, and claymorphism style. Only change the lighting, sky, ground texture, and foliage colors."

/-- The lyon `base_prompt` composition (lyon lines 110-115). -/
def lyon_base_prompt (prompt_details : String) : String :=
  lyon_s1 ++ prompt_details ++ ". " ++ lyon_tail

/-- `containsSeg needle hay` states that `needle` occurs contiguously in `hay`. -/
def containsSeg (needle hay : String) : Prop :=
  ∃ p q, hay = p ++ needle ++ q

/-- The scene-preservation clause of the incity template: geometry, camera angle
and style must stay unchanged. -/
def incity_preservation_clause : String :=
  "Keep the EXACT same tower geometry, proportions, camera angle, and claymorphism 3D style"

/-- Remainder of the incity template after the preservation clause. -/
def incity_after : String :=
  ". The tower structure, windows pattern, and architectural details must remain IDENTICAL. Only change: sky color, lighting direction, weather effects, and LED colors on the tower facade."

/-- The scene-preservation clause of the lyon template. -/
def lyon_preservation_clause : String :=
  "Keep the exact same buildings geometry, camera angle, and claymorphism style"

/-- Remainder of the lyon template after the preservation clause. -/
def lyon_after : String :=
  ". Only change the lighting, sky, ground texture, and foliage colors."

/- ### Observable effects of the GUI layer -/

/-- One observable effect of the embedded code: a blocking error dialog
(`messagebox.showerror`), a background thread start (`threading.Thread(...).start()`),
a log line (`self.log`), a directory creation (`os.makedirs`), a call into the
generation client (`client.models.generate_content`) carrying the composed
prompt, or a file write of a byte sequence. -/
inductive Event where
  | errorDialog (title msg : String)
  | threadStart (filename prompt_details : String)
  | elog (msg : String)
  | mkdirEv (dir : String)
  | adapterCall (prompt : String)
  | fileWrite (path : String) (bytes : List Nat)
  deriving DecidableEq, Repr

/-- The mutable widget state both apps consult before dispatching:
`reference_image_path` (set by `load_image`, `None` initially) and the text of
the credential entry field. -/
structure AppState where
  reference_image_path : Option String
  api_entry : String
  deriving DecidableEq, Repr

/-- Tasks dispatched in an event trace: the `(filename, prompt fragment)`
arguments of every started thread, in order. -/
def dispatched (evs : List Event) : List (String × String) :=
  evs.filterMap (fun e => match e with
    | .threadStart f p => some (f, p)
    | _ => none)

/-- Number of blocking error dialogs in a trace. -/
def dialogCount (evs : List Event) : Nat :=
  (evs.filter (fun e => match e with
    | .errorDialog _ _ => true
    | _ => false)).length

/-- Number of generation-client calls in a trace. -/
def adapterCallCount (evs : List Event) : Nat :=
  (evs.filter (fun e => match e with
    | .adapterCall _ => true
    | _ => false)).length

/-- File writes recorded in a trace, as `(path, bytes)` pairs in order. -/
def fileWrites (evs : List Event) : List (String × List Nat) :=
  evs.filterMap (fun e => match e with
    | .fileWrite p b => some (p, b)
    | _ => none)

/-- Log lines recorded in a trace, in order. -/
def logMsgs (evs : List Event) : List String :=
  evs.filterMap (fun e => match e with
    | .elog m => some m
    | _ => none)

/-- The dialog both apps show when no reference image is loaded. -/
def missingImageDialog : Event :=
  Event.errorDialog ("Erreur") ("Chargez l\x27image d\x27abord !")

/-- The dialog both apps show when the stripped credential field is empty. -/
def missingKeyDialog : Event :=
  Event.errorDialog ("Erreur") ("Clé API manquante !")

/- ### Dispatch entry points -/

/-- `IncityGeneratorApp.trigger_generation` (incity lines 188-196): guard on the
reference image, then on the stripped credential, then start one background
thread with the task's arguments. -/
def trigger_generation (st : AppState) (filename prompt_add : String) : List Event :=
  match st.reference_image_path with
  | none => [missingImageDialog]
  | some _ =>
    if pyStrip st.api_entry = "" then [missingKeyDialog]
    else [Event.threadStart filename prompt_add]

/-- `LyonGeminiV3App.trigger_generation` (lyon lines 183-192): textually the
same guard-and-spawn sequence as the incity app. -/
def lyon_trigger_generation (st : AppState) (filename prompt_add : String) : List Event :=
  match st.reference_image_path with
  | none => [missingImageDialog]
  | some _ =>
    if pyStrip st.api_entry = "" then [missingKeyDialog]
    else [Event.threadStart filename prompt_add]

/- ### Prompt catalog: the per-button task declarations of `create_buttons`
(incity lines 224-533), as `(filename, prompt fragment)` pairs in declared
order.  Multi-line adjacent string literals of the source are concatenated. -/


def incity_day_buttons : List (String × String) := [
  (("incity_clear_golden.png"), ("Golden hour lighting, warm orange and pink sunset sky, soft golden light reflecting on the tower glass facade, dramatic long shadows, romantic warm atmosphere, the tower lit by beautiful sunset colors")),
  (("incity_clear_day.png"), ("Bright sunny midday, clear vivid blue sky, strong direct sunlight, sharp shadows on the tower, bright cheerful atmosphere, summer vibes, the glass facade reflecting the blue sky")),
  (("incity_partly_cloudy_day.png"), ("Partly cloudy sky, mix of blue sky and white fluffy clouds, sun visible between clouds, dynamic lighting with soft shadows, pleasant weather, some clouds drifting across the sky, the tower with alternating sun and cloud shadows")),
  (("incity_cloudy_day.png"), ("Overcast grey sky, flat diffused lighting, no direct shadows, soft grey clouds covering the sky, muted colors, typical Lyon grey day atmosphere, the tower under cloudy weather")),
  (("incity_rain_day.png"), ("Rainy weather, dark grey stormy clouds, visible rain drops falling, wet reflections on surfaces, puddles on the ground, moody rainy atmosphere, the tower during rainfall with glistening wet facade")),
  (("incity_snow_day.png"), ("Snowy winter day, white overcast sky, snow falling gently, snow accumulation on surfaces, cold blue-white atmosphere, winter wonderland, the tower covered with snow on ledges")),
  (("incity_storm_day.png"), ("Dramatic thunderstorm, very dark ominous clouds, lightning bolt visible in the sky, intense atmosphere, dramatic contrast between dark sky and occasional light, the tower during a powerful storm"))
]

def incity_easter_day_buttons : List (String × String) := [
  (("incity_fete_lumieres_day.png"), ("Early december day, pale winter sunlight, sky with subtle purple and blue gradient hues, the tower with faint colorful LED lights visible on facade even in daylight, magical anticipation atmosphere, crisp cold air feeling")),
  (("incity_noel_day.png"), ("Christmas day, soft golden winter light, light snow falling, sky with warm peachy pink winter clouds, the tower with subtle green and red LED lights glowing softly on facade, cozy magical Christmas morning atmosphere")),
  (("incity_nouvel_an_day.png"), ("New Year\x27s day morning, bright crisp winter light, sky with golden and champagne colored clouds, the tower with faint golden sparkle LED lights on facade, fresh hopeful new beginning atmosphere")),
  (("incity_14_juillet_day.png"), ("Bastille Day, bright summer sun, vivid blue sky with subtle white clouds forming tricolor effect, the tower with faint blue white red LED accent lights on facade, patriotic celebratory summer atmosphere")),
  (("incity_halloween_day.png"), ("Halloween day, dramatic orange and purple sunset sky, moody clouds with eerie autumn colors, the tower with faint orange and purple LED lights glowing on facade, mysterious spooky but fun atmosphere")),
  (("incity_saint_valentin_day.png"), ("Valentine\x27s day, soft romantic pink golden hour light, sky with delicate pink and rose colored clouds, the tower with subtle pink heart-shaped LED patterns glowing softly on facade, romantic dreamy love atmosphere"))
]

def incity_easter_night_buttons : List (String × String) := [
  (("incity_fete_lumieres_night.png"), ("Night scene, dark blue sky with stars, the Incity tower displaying SPECTACULAR COLORFUL LED LIGHT SHOW, animated rainbow colors flowing on the facade, purple blue pink lights, artistic light projections, Lyon Festival of Lights celebration, magical luminous atmosphere, the tower as a beacon of colored lights")),
  (("incity_noel_night.png"), ("Christmas night, dark starry sky, light snow falling, the Incity tower displaying FESTIVE RED AND GREEN LED LIGHTS, Christmas tree pattern made of green LEDs, red accents, warm golden fairy lights, holiday spirit, magical cozy Christmas atmosphere on the tower")),
  (("incity_nouvel_an_night.png"), ("New Year\x27s Eve night, fireworks exploding in the sky, the Incity tower displaying GOLDEN AND WHITE SPARKLING LED ANIMATION, shimmering golden lights cascading down the facade, champagne gold and silver sparkles, celebratory atmosphere, the tower glowing with festive golden light")),
  (("incity_14_juillet_night.png"), ("Bastille Day night, fireworks in the background, the Incity tower displaying FRENCH FLAG COLORS in LED lights, blue white red vertical stripes illuminating the facade, patriotic tricolor lighting, national celebration, the tower proudly showing bleu blanc rouge")),
  (("incity_halloween_night.png"), ("Halloween night, full moon visible, spooky atmosphere, the Incity tower displaying ORANGE AND PURPLE LED LIGHTS, jack-o-lantern face pattern in orange LEDs, purple accents, eerie glow, bats silhouettes near the tower, spooky but fun Halloween lighting")),
  (("incity_saint_valentin_night.png"), ("Valentine\x27s night, romantic starry sky, the Incity tower displaying PINK AND RED HEART-SHAPED LED PATTERNS, multiple hearts made of pink LEDs flowing up the facade, romantic rose-colored glow, love atmosphere, the tower as a symbol of love with heart lights"))
]

def incity_night_buttons : List (String × String) := [
  (("incity_night_cyan.png"), ("Night scene, dark blue night sky with soft 3D claymorphism clouds, crescent moon visible in the sky, the Incity tower with its rectangular top section displaying HORIZONTAL LED LIGHT LINES, the cylindrical lower section with warm orange lit windows, calm peaceful night atmosphere, the LED lines glowing in bright cyan turquoise color")),
  (("incity_night_green.png"), ("Night scene, dark blue night sky with soft 3D claymorphism clouds, crescent moon visible in the sky, the Incity tower with its rectangular top section displaying HORIZONTAL LED LIGHT LINES, the cylindrical lower section with warm orange lit windows, calm peaceful night atmosphere, the LED lines glowing in mint green teal color")),
  (("incity_night_yellow.png"), ("Night scene, dark blue night sky with soft 3D claymorphism clouds, crescent moon visible in the sky, the Incity tower with its rectangular top section displaying HORIZONTAL LED LIGHT LINES, the cylindrical lower section with warm orange lit windows, calm peaceful night atmosphere, the LED lines glowing in bright yellow color")),
  (("incity_night_red.png"), ("Night scene, dark blue night sky with soft 3D claymorphism clouds, crescent moon visible in the sky, the Incity tower with its rectangular top section displaying HORIZONTAL LED LIGHT LINES, the cylindrical lower section with warm orange lit windows, calm peaceful night atmosphere, the LED lines glowing in vivid red coral color")),
  (("incity_night_purple.png"), ("Night scene, dark blue night sky with soft 3D claymorphism clouds, crescent moon visible in the sky, the Incity tower with its rectangular top section displaying HORIZONTAL LED LIGHT LINES, the cylindrical lower section with warm orange lit windows, calm peaceful night atmosphere, the LED lines glowing in deep purple magenta color"))
]

def incity_fullmoon_buttons : List (String × String) := [
  (("incity_fullmoon_cyan.png"), ("Night scene, dark blue night sky with soft 3D claymorphism clouds, LARGE BRIGHT FULL MOON prominently visible in the sky casting silver moonlight, the Incity tower with its rectangular top section displaying HORIZONTAL LED LIGHT LINES, the cylindrical lower section with warm orange lit windows, magical mystical full moon night atmosphere, moon reflecting on tower surface, the LED lines glowing in bright cyan turquoise color")),
  (("incity_fullmoon_green.png"), ("Night scene, dark blue night sky with soft 3D claymorphism clouds, LARGE BRIGHT FULL MOON prominently visible in the sky casting silver moonlight, the Incity tower with its rectangular top section displaying HORIZONTAL LED LIGHT LINES, the cylindrical lower section with warm orange lit windows, magical mystical full moon night atmosphere, moon reflecting on tower surface, the LED lines glowing in mint green teal color")),
  (("incity_fullmoon_yellow.png"), ("Night scene, dark blue night sky with soft 3D claymorphism clouds, LARGE BRIGHT FULL MOON prominently visible in the sky casting silver moonlight, the Incity tower with its rectangular top section displaying HORIZONTAL LED LIGHT LINES, the cylindrical lower section with warm orange lit windows, magical mystical full moon night atmosphere, moon reflecting on tower surface, the LED lines glowing in bright yellow color")),
  (("incity_fullmoon_red.png"), ("Night scene, dark blue night sky with soft 3D claymorphism clouds, LARGE BRIGHT FULL MOON prominently visible in the sky casting silver moonlight, the Incity tower with its rectangular top section displaying HORIZONTAL LED LIGHT LINES, the cylindrical lower section with warm orange lit windows, magical mystical full moon night atmosphere, moon reflecting on tower surface, the LED lines glowing in vivid red coral color")),
  (("incity_fullmoon_purple.png"), ("Night scene, dark blue night sky with soft 3D claymorphism clouds, LARGE BRIGHT FULL MOON prominently visible in the sky casting silver moonlight, the Incity tower with its rectangular top section displaying HORIZONTAL LED LIGHT LINES, the cylindrical lower section with warm orange lit windows, magical mystical full moon night atmosphere, moon reflecting on tower surface, the LED lines glowing in deep purple magenta color"))
]

/- ### Batch task lists: the literal config lists inside the generate_all_* functions (incity lines 606-733). -/
def day_configs : List (String × String) := [
  (("incity_clear_golden.png"), ("Golden hour lighting, warm orange and pink sunset sky, soft golden light reflecting on the tower glass facade, dramatic long shadows, romantic warm atmosphere, the tower lit by beautiful sunset colors")),
  (("incity_clear_day.png"), ("Bright sunny midday, clear vivid blue sky, strong direct sunlight, sharp shadows on the tower, bright cheerful atmosphere, summer vibes, the glass facade reflecting the blue sky")),
  (("incity_partly_cloudy_day.png"), ("Partly cloudy sky, mix of blue sky and white fluffy clouds, sun visible between clouds, dynamic lighting with soft shadows, pleasant weather, some clouds drifting across the sky, the tower with alternating sun and cloud shadows")),
  (("incity_cloudy_day.png"), ("Overcast grey sky, flat diffused lighting, no direct shadows, soft grey clouds covering the sky, muted colors, typical Lyon grey day atmosphere, the tower under cloudy weather")),
  (("incity_rain_day.png"), ("Rainy weather, dark grey stormy clouds, visible rain drops falling, wet reflections on surfaces, puddles on the ground, moody rainy atmosphere, the tower during rainfall with glistening wet facade")),
  (("incity_snow_day.png"), ("Snowy winter day, white overcast sky, snow falling gently, snow accumulation on surfaces, cold blue-white atmosphere, winter wonderland, the tower covered with snow on ledges")),
  (("incity_storm_day.png"), ("Dramatic thunderstorm, very dark ominous clouds, lightning bolt visible in the sky, intense atmosphere, dramatic contrast between dark sky and occasional light, the tower during a powerful storm"))
]

def easter_day_configs : List (String × String) := [
  (("incity_fete_lumieres_day.png"), ("Early december day, pale winter sunlight, sky with subtle purple and blue gradient hues, the tower with faint colorful LED lights visible on facade even in daylight, magical anticipation atmosphere, crisp cold air feeling")),
  (("incity_noel_day.png"), ("Christmas day, soft golden winter light, light snow falling, sky with warm peachy pink winter clouds, the tower with subtle green and red LED lights glowing softly on facade, cozy magical Christmas morning atmosphere")),
  (("incity_nouvel_an_day.png"), ("New Year\x27s day morning, bright crisp winter light, sky with golden and champagne colored clouds, the tower with faint golden sparkle LED lights on facade, fresh hopeful new beginning atmosphere")),
  (("incity_14_juillet_day.png"), ("Bastille Day, bright summer sun, vivid blue sky with subtle white clouds forming tricolor effect, the tower with faint blue white red LED accent lights on facade, patriotic celebratory summer atmosphere")),
  (("incity_halloween_day.png"), ("Halloween day, dramatic orange and purple sunset sky, moody clouds with eerie autumn colors, the tower with faint orange and purple LED lights glowing on facade, mysterious spooky but fun atmosphere")),
  (("incity_saint_valentin_day.png"), ("Valentine\x27s day, soft romantic pink golden hour light, sky with delicate pink and rose colored clouds, the tower with subtle pink heart-shaped LED patterns glowing softly on facade, romantic dreamy love atmosphere"))
]

def easter_night_configs : List (String × String) := [
  (("incity_fete_lumieres_night.png"), ("Night scene, dark blue sky with stars, the Incity tower displaying SPECTACULAR COLORFUL LED LIGHT SHOW, animated rainbow colors flowing on the facade, purple blue pink lights, artistic light projections, Lyon Festival of Lights celebration, magical luminous atmosphere, the tower as a beacon of colored lights")),
  (("incity_noel_night.png"), ("Christmas night, dark starry sky, light snow falling, the Incity tower displaying FESTIVE RED AND GREEN LED LIGHTS, Christmas tree pattern made of green LEDs, red accents, warm golden fairy lights, holiday spirit, magical cozy Christmas atmosphere on the tower")),
  (("incity_nouvel_an_night.png"), ("New Year\x27s Eve night, fireworks exploding in the sky, the Incity tower displaying GOLDEN AND WHITE SPARKLING LED ANIMATION, shimmering golden lights cascading down the facade, champagne gold and silver sparkles, celebratory atmosphere, the tower glowing with festive golden light")),
  (("incity_14_juillet_night.png"), ("Bastille Day night, fireworks in the background, the Incity tower displaying FRENCH FLAG COLORS in LED lights, blue white red vertical stripes illuminating the facade, patriotic tricolor lighting, national celebration, the tower proudly showing bleu blanc rouge")),
  (("incity_halloween_night.png"), ("Halloween night, full moon visible, spooky atmosphere, the Incity tower displaying ORANGE AND PURPLE LED LIGHTS, jack-o-lantern face pattern in orange LEDs, purple accents, eerie glow, bats silhouettes near the tower, spooky but fun Halloween lighting")),
  (("incity_saint_valentin_night.png"), ("Valentine\x27s night, romantic starry sky, the Incity tower displaying PINK AND RED HEART-SHAPED LED PATTERNS, multiple hearts made of pink LEDs flowing up the facade, romantic rose-colored glow, love atmosphere, the tower as a symbol of love with heart lights"))
]

def night_configs : List (String × String) := [
  (("incity_night_cyan.png"), ("Night scene, dark blue night sky with soft 3D claymorphism clouds, crescent moon visible in the sky, the Incity tower with its rectangular top section displaying HORIZONTAL LED LIGHT LINES, the cylindrical lower section with warm orange lit windows, calm peaceful night atmosphere, the LED lines glowing in bright cyan turquoise color")),
  (("incity_night_green.png"), ("Night scene, dark blue night sky with soft 3D claymorphism clouds, crescent moon visible in the sky, the Incity tower with its rectangular top section displaying HORIZONTAL LED LIGHT LINES, the cylindrical lower section with warm orange lit windows, calm peaceful night atmosphere, the LED lines glowing in mint green teal color")),
  (("incity_night_yellow.png"), ("Night scene, dark blue night sky with soft 3D claymorphism clouds, crescent moon visible in the sky, the Incity tower with its rectangular top section displaying HORIZONTAL LED LIGHT LINES, the cylindrical lower section with warm orange lit windows, calm peaceful night atmosphere, the LED lines glowing in bright yellow color")),
  (("incity_night_red.png"), ("Night scene, dark blue night sky with soft 3D claymorphism clouds, crescent moon visible in the sky, the Incity tower with its rectangular top section displaying HORIZONTAL LED LIGHT LINES, the cylindrical lower section with warm orange lit windows, calm peaceful night atmosphere, the LED lines glowing in vivid red coral color")),
  (("incity_night_purple.png"), ("Night scene, dark blue night sky with soft 3D claymorphism clouds, crescent moon visible in the sky, the Incity tower with its rectangular top section displaying HORIZONTAL LED LIGHT LINES, the cylindrical lower section with warm orange lit windows, calm peaceful night atmosphere, the LED lines glowing in deep purple magenta color"))
]

def fullmoon_configs : List (String × String) := [
  (("incity_fullmoon_cyan.png"), ("Night scene, dark blue night sky with soft 3D claymorphism clouds, LARGE BRIGHT FULL MOON prominently visible in the sky casting silver moonlight, the Incity tower with its rectangular top section displaying HORIZONTAL LED LIGHT LINES, the cylindrical lower section with warm orange lit windows, magical mystical full moon night atmosphere, moon reflecting on tower surface, the LED lines glowing in bright cyan turquoise color")),
  (("incity_fullmoon_green.png"), ("Night scene, dark blue night sky with soft 3D claymorphism clouds, LARGE BRIGHT FULL MOON prominently visible in the sky casting silver moonlight, the Incity tower with its rectangular top section displaying HORIZONTAL LED LIGHT LINES, the cylindrical lower section with warm orange lit windows, magical mystical full moon night atmosphere, moon reflecting on tower surface, the LED lines glowing in mint green teal color")),
  (("incity_fullmoon_yellow.png"), ("Night scene, dark blue night sky with soft 3D claymorphism clouds, LARGE BRIGHT FULL MOON prominently visible in the sky casting silver moonlight, the Incity tower with its rectangular top section displaying HORIZONTAL LED LIGHT LINES, the cylindrical lower section with warm orange lit windows, magical mystical full moon night atmosphere, moon reflecting on tower surface, the LED lines glowing in bright yellow color")),
  (("incity_fullmoon_red.png"), ("Night scene, dark blue night sky with soft 3D claymorphism clouds, LARGE BRIGHT FULL MOON prominently visible in the sky casting silver moonlight, the Incity tower with its rectangular top section displaying HORIZONTAL LED LIGHT LINES, the cylindrical lower section with warm orange lit windows, magical mystical full moon night atmosphere, moon reflecting on tower surface, the LED lines glowing in vivid red coral color")),
  (("incity_fullmoon_purple.png"), ("Night scene, dark blue night sky with soft 3D claymorphism clouds, LARGE BRIGHT FULL MOON prominently visible in the sky casting silver moonlight, the Incity tower with its rectangular top section displaying HORIZONTAL LED LIGHT LINES, the cylindrical lower section with warm orange lit windows, magical mystical full moon night atmosphere, moon reflecting on tower surface, the LED lines glowing in deep purple magenta color"))
]

/- ### Batch dispatch entry points (incity lines 606-733) -/

/-- `IncityGeneratorApp.generate_all_day` (incity lines 606-627): the same two
precondition guards as `trigger_generation`, then a batch log line and one
background thread per entry of `day_configs`, in list order. -/
def generate_all_day (st : AppState) : List Event :=
  match st.reference_image_path with
  | none => [missingImageDialog]
  | some _ =>
    if pyStrip st.api_entry = "" then [missingKeyDialog]
    else Event.elog ("Génération batch MÉTÉO JOUR (7 images)...") ::
      day_configs.map (fun fp => Event.threadStart fp.1 fp.2)

/-- `IncityGeneratorApp.generate_all_easter_day` (incity lines 629-649). -/
def generate_all_easter_day (st : AppState) : List Event :=
  match st.reference_image_path with
  | none => [missingImageDialog]
  | some _ =>
    if pyStrip st.api_entry = "" then [missingKeyDialog]
    else Event.elog ("Génération batch EASTER EGGS JOUR (6 images)...") ::
      easter_day_configs.map (fun fp => Event.threadStart fp.1 fp.2)

/-- `IncityGeneratorApp.generate_all_easter_night` (incity lines 651-671). -/
def generate_all_easter_night (st : AppState) : List Event :=
  match st.reference_image_path with
  | none => [missingImageDialog]
  | some _ =>
    if pyStrip st.api_entry = "" then [missingKeyDialog]
    else Event.elog ("Génération batch EASTER EGGS NUIT (6 images)...") ::
      easter_night_configs.map (fun fp => Event.threadStart fp.1 fp.2)

/-- `IncityGeneratorApp.generate_all_night` (incity lines 673-694). -/
def generate_all_night (st : AppState) : List Event :=
  match st.reference_image_path with
  | none => [missingImageDialog]
  | some _ =>
    if pyStrip st.api_entry = "" then [missingKeyDialog]
    else Event.elog ("Génération batch NUIT LED (5 images)...") ::
      night_configs.map (fun fp => Event.threadStart fp.1 fp.2)

/-- `IncityGeneratorApp.generate_all_fullmoon` (incity lines 696-717). -/
def generate_all_fullmoon (st : AppState) : List Event :=
  match st.reference_image_path with
  | none => [missingImageDialog]
  | some _ =>
    if pyStrip st.api_entry = "" then [missingKeyDialog]
    else Event.elog ("Génération batch PLEINE LUNE (5 images)...") ::
      fullmoon_configs.map (fun fp => Event.threadStart fp.1 fp.2)

/-- `IncityGeneratorApp.generate_all_everything` (incity lines 719-733): its own
two precondition guards, a total log line, then the five group functions run in
sequence (each re-checks the same preconditions, which still hold). -/
def generate_all_everything (st : AppState) : List Event :=
  match st.reference_image_path with
  | none => [missingImageDialog]
  | some _ =>
    if pyStrip st.api_entry = "" then [missingKeyDialog]
    else Event.elog ("Génération TOTALE (29 images)...") ::
      (generate_all_day st ++ generate_all_easter_day st ++
       generate_all_easter_night st ++ generate_all_night st ++
       generate_all_fullmoon st)

/- ### The background task function `generate_task`
(incity lines 114-186, lyon lines 97-181) -/

/-- The payload of `part.inline_data.data`: the SDK may hand back raw bytes or a
base64 text string (the code branches on `isinstance(img_bytes, str)`). -/
inductive InlineVal where
  | strVal (s : String)
  | bytesVal (b : List Nat)
  deriving DecidableEq, Repr

/-- One element of `response.parts` as the code observes it: whether
`inline_data` is present and what its `data` holds; whether the part object has
an `as_image` attribute; and, when the convenience accessor is attempted, the
byte sequence its `img.save(final_path)` would put on disk (`none` when
`as_image()` or `save` raises, which the inner bare `except` swallows). -/
structure RespPart where
  inline_data : Option InlineVal
  has_as_image : Bool
  as_image_result : Option (List Nat)
  deriving DecidableEq, Repr

/-- Outcomes of the external collaborators for one `generate_task` run, one per
fallible call site the Python code guards: `genai.Client` construction,
`os.makedirs`, `client.models.generate_content` (raising, or returning
`response.parts`), and the raw `open(final_path, "wb")` write. -/
structure GenEnv where
  client_result : Except String Unit
  mkdir_ok : Bool
  api_result : Except String (List RespPart)
  write_ok : Bool
  deriving Repr

/-- Result of the response-unwrapping loop: either the loop finishes (events
performed, final `image_saved` flag) or an exception escapes it into the outer
handler (a base64 decode error or a failed raw write). -/
inductive StepResult where
  | done (evs : List Event) (saved : Bool)
  | exn (evs : List Event) (e : String)
  deriving DecidableEq, Repr

/-- The raw-save normalization (incity lines 170-173, lyon lines 165-168):
a text payload is base64-decoded, a byte payload is used unchanged. -/
def raw_decode : InlineVal → Option (List Nat)
  | .strVal s => base64Decode s
  | .bytesVal b => some b

/-- The `for part in response.parts` loop (incity lines 155-177, lyon lines
144-172): for each part carrying `inline_data`, first try the `as_image`
convenience accessor (saving and breaking on success, swallowing any exception);
otherwise, if no image has been saved yet, decode the payload and write it
raw — a decode or write failure raises into the outer handler. -/
def processParts (wk : Bool) (path : String) : List RespPart → Bool → StepResult
  | [], saved => .done [] saved
  | p :: rest, saved =>
    match p.inline_data with
    | none => processParts wk path rest saved
    | some v =>
      match (if p.has_as_image then p.as_image_result else none) with
      | some b => .done [Event.fileWrite path b] true
      | none =>
        if saved then processParts wk path rest saved
        else
          match raw_decode v with
          | none => .exn [] ("Invalid base64-encoded string")
          | some d =>
            if wk then
              match processParts wk path rest true with
              | .done evs s2 => .done (Event.fileWrite path d :: evs) s2
              | .exn evs e => .exn (Event.fileWrite path d :: evs) e
            else .exn [] ("write failed")

/-- Result of a `generate_task` run: either the function returns normally with
its event trace, or an exception escapes the function (only possible at the
`os.makedirs` call, which sits outside both `try` blocks). -/
inductive TaskResult where
  | completed (evs : List Event)
  | raised (evs : List Event) (e : String)
  deriving DecidableEq, Repr

/-- Event trace of a task run, whether or not it escaped with an exception. -/
def TaskResult.events : TaskResult → List Event
  | .completed evs => evs
  | .raised evs _ => evs

/-- Whether the run returned normally. -/
def TaskResult.isCompleted : TaskResult → Bool
  | .completed _ => true
  | .raised _ _ => false

/-- The strings that differ between the two apps' otherwise identical
`generate_task` bodies: the prompt compositor, the output subdirectory, and the
log-message formats. -/
structure AppCfg where
  base_prompt : String → String
  output_subdir : String
  log_start : String → String
  log_ok : String → String
  log_no_image : String → String
  log_err : String → String
  log_client_err : String → String

/-- `generate_task` (incity lines 114-186, lyon lines 97-181): construct the
client (logging and returning on failure), compose the prompt, log the start
line, create the output directory (outside any `try`: a failure here escapes),
call the generation client, unwrap the response parts, and log the outcome.
All failures after directory creation are caught and logged. -/
def generate_task (cfg : AppCfg) (cwd : String) (_api_entry : String)
    (env : GenEnv) (filename prompt_details : String) : TaskResult :=
  match env.client_result with
  | .error e => .completed [Event.elog (cfg.log_client_err e)]
  | .ok _ =>
    let base_prompt := cfg.base_prompt prompt_details
    let ev0 : List Event := [Event.elog (cfg.log_start filename)]
    let output_dir := cwd ++ "/" ++ cfg.output_subdir
    if env.mkdir_ok then
      let final_path := output_dir ++ "/" ++ filename
      let ev1 := ev0 ++ [Event.mkdirEv output_dir]
      match env.api_result with
      | .error e =>
        .completed (ev1 ++ [Event.adapterCall base_prompt, Event.elog (cfg.log_err e)])
      | .ok parts =>
        let ev2 := ev1 ++ [Event.adapterCall base_prompt]
        match processParts env.write_ok final_path parts false with
        | .done evs saved =>
          .completed (ev2 ++ evs ++
            [Event.elog (if saved then cfg.log_ok filename else cfg.log_no_image filename)])
        | .exn evs e =>
          .completed (ev2 ++ evs ++ [Event.elog (cfg.log_err e)])
    else .raised ev0 ("makedirs failed: " ++ output_dir)

/-- The incity app's strings (incity lines 121, 125-131, 133, 135, 180, 182, 186). -/
def incityCfg : AppCfg :=
  ⟨incity_base_prompt,
   "output_incity",
   fun filename => "Génération: " ++ filename ++ "...",
   fun filename => "OK: " ++ filename,
   fun filename => "Pas d\x27image retournée pour " ++ filename,
   fun e => "ERREUR: " ++ e,
   fun e => "Erreur Client: " ++ e⟩

/-- The lyon app's strings (lyon lines 105, 110-115, 117, 119, 175, 177, 181). -/
def lyonCfg : AppCfg :=
  ⟨lyon_base_prompt,
   "output_lyon_gemini3",
   fun filename => "⏳ Gemini 3 Pro travaille sur : " ++ filename ++ "...",
   fun filename => "✅ SUCCÈS : " ++ filename ++ " sauvegardé (2K) !",
   fun _ => "⚠️ API a répondu mais pas d\x27image. Vérifiez la console.",
   fun e => "❌ ERREUR API : " ++ e,
   fun e => "❌ Erreur Client: " ++ e⟩

/-- `IncityGeneratorApp.generate_task`, the incity background task. -/
def incity_generate_task : String → String → GenEnv → String → String → TaskResult :=
  generate_task incityCfg

/-- `LyonGeminiV3App.generate_task`, the lyon background task. -/
def lyon_generate_task : String → String → GenEnv → String → String → TaskResult :=
  generate_task lyonCfg

set_option maxRecDepth 8000

/- ### C1: scene preservation in every composed prompt -/

/-- C1. For every prompt fragment substituted into either app's template, the
composed prompt verifiably includes the scene-preservation clause requiring the
geometry, camera angle and (claymorphism) style of the reference subject to
stay unchanged.  (The clause is not a prefix of the composed prompt — the
templates place it after the fragment — so the claim holds through its second
disjunct: every required preservation clause is contained in the prompt.) -/
theorem c1_preservation_clause_in_every_prompt (d : String) :
    containsSeg incity_preservation_clause (incity_base_prompt d) ∧
    containsSeg lyon_preservation_clause (lyon_base_prompt d) := by
  constructor
  · refine ⟨incity_s1 ++ d ++ ". CRITICAL: ", incity_after, ?_⟩
    have key : ". " ++ incity_tail =
        ". CRITICAL: " ++ (incity_preservation_clause ++ incity_after) := by decide
    show incity_s1 ++ d ++ ". " ++ incity_tail = _
    simp only [String.append_assoc]
    rw [key]
  · refine ⟨lyon_s1 ++ d ++ ". ", lyon_after, ?_⟩
    have key : lyon_tail = lyon_preservation_clause ++ lyon_after := by decide
    show lyon_s1 ++ d ++ ". " ++ lyon_tail = _
    simp only [String.append_assoc]
    rw [key]

/- ### C2: batch dispatch equals the declared catalog groups -/

/-- Dispatching a mapped thread list recovers exactly the task list. -/
theorem dispatched_map_threads (l : List (String × String)) :
    dispatched (l.map (fun fp => Event.threadStart fp.1 fp.2)) = l := by
  induction l with
  | nil => rfl
  | cons a t ih => simpa [dispatched] using ih

/-- A log event contributes nothing to the dispatched task list. -/
theorem dispatched_elog (m : String) (l : List Event) :
    dispatched (Event.elog m :: l) = dispatched l := by
  simp [dispatched]

/-- The union of the five declared button groups, in group order. -/
def incity_all_buttons : List (String × String) :=
  incity_day_buttons ++ incity_easter_day_buttons ++ incity_easter_night_buttons ++
    incity_night_buttons ++ incity_fullmoon_buttons

/-- C2. When the preconditions hold, each `generate_all_*` batch dispatches
exactly the `(filename, prompt fragment)` pairs declared for its group by the
button catalog, in declared order; `generate_all_everything` dispatches exactly
the union of the five groups — 29 tasks with pairwise distinct filenames. -/
theorem c2_batch_dispatch_matches_catalog (st : AppState)
    (h1 : st.reference_image_path ≠ none) (h2 : pyStrip st.api_entry ≠ "") :
    dispatched (generate_all_day st) = incity_day_buttons ∧
    dispatched (generate_all_easter_day st) = incity_easter_day_buttons ∧
    dispatched (generate_all_easter_night st) = incity_easter_night_buttons ∧
    dispatched (generate_all_night st) = incity_night_buttons ∧
    dispatched (generate_all_fullmoon st) = incity_fullmoon_buttons ∧
    dispatched (generate_all_everything st) = incity_all_buttons ∧
    incity_all_buttons.length = 29 ∧
    (incity_all_buttons.map Prod.fst).Nodup := by
  obtain ⟨ref, api⟩ := st
  cases ref with
  | none => exact absurd rfl h1
  | some r =>
    simp only [ne_eq] at h2
    have eq_day : day_configs = incity_day_buttons := by decide
    have eq_ed : easter_day_configs = incity_easter_day_buttons := by decide
    have eq_en : easter_night_configs = incity_easter_night_buttons := by decide
    have eq_n : night_configs = incity_night_buttons := by decide
    have eq_f : fullmoon_configs = incity_fullmoon_buttons := by decide
    have d1 : dispatched (generate_all_day ⟨some r, api⟩) = incity_day_buttons := by
      simp [generate_all_day, h2, dispatched_elog, dispatched_map_threads, eq_day]
    have d2 : dispatched (generate_all_easter_day ⟨some r, api⟩) = incity_easter_day_buttons := by
      simp [generate_all_easter_day, h2, dispatched_elog, dispatched_map_threads, eq_ed]
    have d3 : dispatched (generate_all_easter_night ⟨some r, api⟩) = incity_easter_night_buttons := by
      simp [generate_all_easter_night, h2, dispatched_elog, dispatched_map_threads, eq_en]
    have d4 : dispatched (generate_all_night ⟨some r, api⟩) = incity_night_buttons := by
      simp [generate_all_night, h2, dispatched_elog, dispatched_map_threads, eq_n]
    have d5 : dispatched (generate_all_fullmoon ⟨some r, api⟩) = incity_fullmoon_buttons := by
      simp [generate_all_fullmoon, h2, dispatched_elog, dispatched_map_threads, eq_f]
    refine ⟨d1, d2, d3, d4, d5, ?_, by decide, by decide⟩
    have hev : generate_all_everything ⟨some r, api⟩ =
        Event.elog ("Génération TOTALE (29 images)...") ::
          (generate_all_day ⟨some r, api⟩ ++ generate_all_easter_day ⟨some r, api⟩ ++
           generate_all_easter_night ⟨some r, api⟩ ++ generate_all_night ⟨some r, api⟩ ++
           generate_all_fullmoon ⟨some r, api⟩) := by
      simp [generate_all_everything, h2]
    rw [hev, dispatched_elog]
    simp only [dispatched, List.filterMap_append] at d1 d2 d3 d4 d5 ⊢
    rw [d1, d2, d3, d4, d5]
    rfl

/-- C2 witness: the batch-dispatch theorem instantiated at a concrete state
with an image loaded and a non-blank credential. -/
theorem c2_batch_dispatch_matches_catalog_witness :
    dispatched (generate_all_day ⟨some ("incity.png"), ("k")⟩) = incity_day_buttons ∧
    dispatched (generate_all_easter_day ⟨some ("incity.png"), ("k")⟩) = incity_easter_day_buttons ∧
    dispatched (generate_all_easter_night ⟨some ("incity.png"), ("k")⟩) = incity_easter_night_buttons ∧
    dispatched (generate_all_night ⟨some ("incity.png"), ("k")⟩) = incity_night_buttons ∧
    dispatched (generate_all_fullmoon ⟨some ("incity.png"), ("k")⟩) = incity_fullmoon_buttons ∧
    dispatched (generate_all_everything ⟨some ("incity.png"), ("k")⟩) = incity_all_buttons ∧
    incity_all_buttons.length = 29 ∧
    (incity_all_buttons.map Prod.fst).Nodup :=
  c2_batch_dispatch_matches_catalog ⟨some ("incity.png"), ("k")⟩ (by decide) (by decide)

/- ### C3: precondition failures dispatch nothing and show exactly one dialog -/

/-- A trace with exactly one blocking dialog, no thread started, and no
generation-client call. -/
def oneDialogNoWork (evs : List Event) : Prop :=
  dialogCount evs = 1 ∧ dispatched evs = [] ∧ adapterCallCount evs = 0

/-- C3. For every dispatch entry point of both apps — the single-task triggers
and each of the six incity batch operations — a state with no reference image
loaded, or with a credential field that is empty after stripping, produces
exactly one blocking error dialog, starts zero background threads, and performs
zero generation-client calls. -/
theorem c3_precondition_blocks_all_entry_points (st : AppState) (f d : String)
    (h : st.reference_image_path = none ∨ pyStrip st.api_entry = "") :
    oneDialogNoWork (trigger_generation st f d) ∧
    oneDialogNoWork (lyon_trigger_generation st f d) ∧
    oneDialogNoWork (generate_all_day st) ∧
    oneDialogNoWork (generate_all_easter_day st) ∧
    oneDialogNoWork (generate_all_easter_night st) ∧
    oneDialogNoWork (generate_all_night st) ∧
    oneDialogNoWork (generate_all_fullmoon st) ∧
    oneDialogNoWork (generate_all_everything st) := by
  obtain ⟨ref, api⟩ := st
  have hone : oneDialogNoWork [missingImageDialog] := ⟨by decide, by decide, by decide⟩
  have htwo : oneDialogNoWork [missingKeyDialog] := ⟨by decide, by decide, by decide⟩
  rcases h with h | h
  · simp only at h
    subst h
    exact ⟨hone, hone, hone, hone, hone, hone, hone, hone⟩
  · simp only at h
    cases ref with
    | none =>
      exact ⟨hone, hone, hone, hone, hone, hone, hone, hone⟩
    | some r =>
      simp only [trigger_generation, lyon_trigger_generation, generate_all_day,
        generate_all_easter_day, generate_all_easter_night, generate_all_night,
        generate_all_fullmoon, generate_all_everything, h, if_pos]
      exact ⟨htwo, htwo, htwo, htwo, htwo, htwo, htwo, htwo⟩

/-- C3 witness: the guard theorem instantiated at the empty initial state
(no image, blank credential). -/
theorem c3_precondition_blocks_all_entry_points_witness :
    oneDialogNoWork (trigger_generation ⟨none, ("")⟩ ("a.png") ("p")) ∧
    oneDialogNoWork (lyon_trigger_generation ⟨none, ("")⟩ ("a.png") ("p")) ∧
    oneDialogNoWork (generate_all_day ⟨none, ("")⟩) ∧
    oneDialogNoWork (generate_all_easter_day ⟨none, ("")⟩) ∧
    oneDialogNoWork (generate_all_easter_night ⟨none, ("")⟩) ∧
    oneDialogNoWork (generate_all_night ⟨none, ("")⟩) ∧
    oneDialogNoWork (generate_all_fullmoon ⟨none, ("")⟩) ∧
    oneDialogNoWork (generate_all_everything ⟨none, ("")⟩) :=
  c3_precondition_blocks_all_entry_points ⟨none, ("")⟩ ("a.png") ("p") (Or.inl rfl)

/- ### C8: with both preconditions failing, only the missing-image dialog shows -/

/-- C8. The image guard runs first in every entry point: whenever no reference
image is loaded — in particular when the credential field is simultaneously
blank — every dispatch entry point of both apps produces exactly the
missing-image dialog and returns; and the missing-credential dialog can only
ever appear in a state whose reference image is loaded. -/
theorem c8_image_guard_shadows_key_guard (st : AppState) (f d : String) :
    (st.reference_image_path = none →
      trigger_generation st f d = [missingImageDialog] ∧
      lyon_trigger_generation st f d = [missingImageDialog] ∧
      generate_all_day st = [missingImageDialog] ∧
      generate_all_easter_day st = [missingImageDialog] ∧
      generate_all_easter_night st = [missingImageDialog] ∧
      generate_all_night st = [missingImageDialog] ∧
      generate_all_fullmoon st = [missingImageDialog] ∧
      generate_all_everything st = [missingImageDialog]) ∧
    ((missingKeyDialog ∈ trigger_generation st f d ∨
      missingKeyDialog ∈ lyon_trigger_generation st f d ∨
      missingKeyDialog ∈ generate_all_day st ∨
      missingKeyDialog ∈ generate_all_easter_day st ∨
      missingKeyDialog ∈ generate_all_easter_night st ∨
      missingKeyDialog ∈ generate_all_night st ∨
      missingKeyDialog ∈ generate_all_fullmoon st ∨
      missingKeyDialog ∈ generate_all_everything st) →
      st.reference_image_path ≠ none) := by
  obtain ⟨ref, api⟩ := st
  constructor
  · intro h
    simp only at h
    subst h
    exact ⟨rfl, rfl, rfl, rfl, rfl, rfl, rfl, rfl⟩
  · intro h
    cases ref with
    | some r => simp
    | none =>
      exfalso
      have hne : ¬ (missingKeyDialog ∈ ([missingImageDialog] : List Event)) := by decide
      rcases h with h | h | h | h | h | h | h | h <;> exact hne h

/-- C8 witness: at the state where both preconditions fail at once, every
entry point shows only the missing-image dialog. -/
theorem c8_image_guard_shadows_key_guard_witness :
    trigger_generation ⟨none, ("")⟩ ("a.png") ("p") = [missingImageDialog] ∧
    lyon_trigger_generation ⟨none, ("")⟩ ("a.png") ("p") = [missingImageDialog] ∧
    generate_all_day ⟨none, ("")⟩ = [missingImageDialog] ∧
    generate_all_easter_day ⟨none, ("")⟩ = [missingImageDialog] ∧
    generate_all_easter_night ⟨none, ("")⟩ = [missingImageDialog] ∧
    generate_all_night ⟨none, ("")⟩ = [missingImageDialog] ∧
    generate_all_fullmoon ⟨none, ("")⟩ = [missingImageDialog] ∧
    generate_all_everything ⟨none, ("")⟩ = [missingImageDialog] :=
  (c8_image_guard_shadows_key_guard ⟨none, ("")⟩ ("a.png") ("p")).1 rfl

/- ### Helper lemmas about the response-unwrapping loop -/

/-- The byte sequences a single response part can legitimately put on disk:
its decoded raw payload (bytes unchanged, or the base64-decoding of a text
payload), and, when the `as_image` accessor is attempted, whatever that
accessor's save produces. -/
def partPayloads (p : RespPart) : List (List Nat) :=
  (match p.inline_data with
   | some v => (raw_decode v).toList
   | none => []) ++
  (if p.has_as_image then p.as_image_result.toList else [])

/-- A response whose parts all lack `inline_data` drives the loop to completion
with no events and an unchanged `image_saved` flag. -/
theorem processParts_no_inline (wk : Bool) (path : String) :
    ∀ (parts : List RespPart), parts.all (fun p => p.inline_data.isNone) = true →
    ∀ saved, processParts wk path parts saved = .done [] saved := by
  intro parts
  induction parts with
  | nil => intro _ saved; rfl
  | cons p rest ih =>
    intro h saved
    rw [List.all_cons, Bool.and_eq_true] at h
    obtain ⟨h1, h2⟩ := h
    cases hp : p.inline_data with
    | some v => rw [hp] at h1; simp at h1
    | none =>
      show processParts wk path (p :: rest) saved = _
      rw [processParts, hp]
      exact ih h2 saved

/-- Every event the loop emits on normal completion is a file write to the
single target path, of a byte sequence that is a legitimate payload of one of
the response parts. -/
theorem processParts_done_writes (wk : Bool) (path : String) :
    ∀ (parts : List RespPart) (saved : Bool) (evs : List Event) (s : Bool),
      processParts wk path parts saved = .done evs s →
      ∀ ev ∈ evs, ∃ prt ∈ parts, ∃ b, ev = Event.fileWrite path b ∧ b ∈ partPayloads prt := by
  intro parts
  induction parts with
  | nil =>
    intro saved evs s h ev hev
    rw [processParts] at h
    cases h
    simp at hev
  | cons p rest ih =>
    intro saved evs s h ev hev
    rw [processParts] at h
    cases hp : p.inline_data with
    | none =>
      simp only [hp] at h
      obtain ⟨prt, hprt, b, hb⟩ := ih saved evs s h ev hev
      exact ⟨prt, List.mem_cons_of_mem p hprt, b, hb⟩
    | some v =>
      simp only [hp] at h
      cases hai : (if p.has_as_image then p.as_image_result else none) with
      | some b =>
        simp only [hai] at h
        cases h
        have hev1 : ev = Event.fileWrite path b := by simpa using hev
        refine ⟨p, List.mem_cons_self p rest, b, hev1, ?_⟩
        cases hhas : p.has_as_image with
        | false => rw [hhas] at hai; simp at hai
        | true =>
          rw [hhas] at hai
          simp only [if_pos] at hai
          simp [partPayloads, hhas, hai]
      | none =>
        simp only [hai] at h
        by_cases hs : saved = true
        · rw [if_pos hs] at h
          obtain ⟨prt, hprt, b, hb⟩ := ih saved evs s h ev hev
          exact ⟨prt, List.mem_cons_of_mem p hprt, b, hb⟩
        · rw [if_neg hs] at h
          cases hd : raw_decode v with
          | none => simp only [hd] at h; cases h
          | some dta =>
            simp only [hd] at h
            cases hwk : wk with
            | false => simp only [hwk] at h; simp at h
            | true =>
              subst hwk
              simp only [if_true] at h
              cases hrec : processParts true path rest true with
              | done evs2 s2 =>
                rw [hrec] at h
                cases h
                rcases List.mem_cons.mp hev with hev1 | hev2
                · refine ⟨p, List.mem_cons_self p rest, dta, hev1, ?_⟩
                  simp [partPayloads, hp, hd]
                · obtain ⟨prt, hprt, b, hb⟩ := ih true evs2 _ hrec ev hev2
                  exact ⟨prt, List.mem_cons_of_mem p hprt, b, hb⟩
              | exn evs2 e2 => rw [hrec] at h; cases h

/-- When the loop starts unsaved and completes saved, it emitted at least one
event. -/
theorem processParts_saved_nonempty (wk : Bool) (path : String) :
    ∀ (parts : List RespPart) (evs : List Event),
      processParts wk path parts false = .done evs true → evs ≠ [] := by
  intro parts
  induction parts with
  | nil =>
    intro evs h
    rw [processParts] at h
    cases h
  | cons p rest ih =>
    intro evs h
    rw [processParts] at h
    cases hp : p.inline_data with
    | none => simp only [hp] at h; exact ih evs h
    | some v =>
      simp only [hp] at h
      cases hai : (if p.has_as_image then p.as_image_result else none) with
      | some b =>
        simp only [hai] at h
        cases h
        simp
      | none =>
        simp only [hai] at h
        rw [if_neg (by simp)] at h
        cases hd : raw_decode v with
        | none => simp only [hd] at h; cases h
        | some dta =>
          simp only [hd] at h
          cases hwk : wk with
          | false => simp only [hwk] at h; simp at h
          | true =>
            subst hwk
            simp only [if_true] at h
            cases hrec : processParts true path rest true with
            | done evs2 s2 => rw [hrec] at h; cases h; simp
            | exn evs2 e2 => rw [hrec] at h; cases h

/- ### C4: what a successful run actually writes -/

/-- Generic success-path lemma: when client construction, directory creation
and the raw write all succeed, the generation call returns `parts`, and the
unwrapping loop completes in the saved state, then the run writes at least one
file, every write targets `<cwd>/<output subdir>/<filename>`, and every written
byte sequence is a legitimate payload of one of the response parts. -/
theorem generate_task_success_writes (cfg : AppCfg) (cwd api f d : String)
    (parts : List RespPart) (evs : List Event)
    (h : processParts true (cwd ++ "/" ++ cfg.output_subdir ++ "/" ++ f) parts false =
      .done evs true) :
    fileWrites (generate_task cfg cwd api ⟨.ok (), true, .ok parts, true⟩ f d).events ≠ [] ∧
    ∀ w ∈ fileWrites (generate_task cfg cwd api ⟨.ok (), true, .ok parts, true⟩ f d).events,
      w.1 = cwd ++ "/" ++ cfg.output_subdir ++ "/" ++ f ∧
      ∃ prt ∈ parts, w.2 ∈ partPayloads prt := by
  have hrun : (generate_task cfg cwd api ⟨.ok (), true, .ok parts, true⟩ f d).events =
      ([Event.elog (cfg.log_start f)] ++ [Event.mkdirEv (cwd ++ "/" ++ cfg.output_subdir)] ++
        [Event.adapterCall (cfg.base_prompt d)]) ++ evs ++
      [Event.elog (cfg.log_ok f)] := by
    show (generate_task cfg cwd api ⟨.ok (), true, .ok parts, true⟩ f d).events = _
    rw [generate_task]
    simp only [if_true, h]
    rfl
  have hfw : fileWrites (generate_task cfg cwd api ⟨.ok (), true, .ok parts, true⟩ f d).events =
      fileWrites evs := by
    rw [hrun]
    simp [fileWrites, List.filterMap_append]
  constructor
  · rw [hfw]
    have hne := processParts_saved_nonempty true
      (cwd ++ "/" ++ cfg.output_subdir ++ "/" ++ f) parts evs h
    cases hevs : evs with
    | nil => exact absurd hevs hne
    | cons e t =>
      obtain ⟨prt, _, b, hb, _⟩ := processParts_done_writes true
        (cwd ++ "/" ++ cfg.output_subdir ++ "/" ++ f) parts false evs true h e
        (hevs ▸ List.mem_cons_self e t)
      subst hevs
      rw [hb]
      simp [fileWrites, TaskResult.events]
  · intro w hw
    rw [hfw] at hw
    simp only [fileWrites, List.mem_filterMap] at hw
    obtain ⟨ev, hev, hsome⟩ := hw
    obtain ⟨prt, hprt, b, hb, hbp⟩ := processParts_done_writes true
      (cwd ++ "/" ++ cfg.output_subdir ++ "/" ++ f) parts false evs true h ev hev
    subst hb
    simp only [Option.some.injEq] at hsome
    subst hsome
    exact ⟨rfl, prt, hprt, hbp⟩

/-- C4 counterexample.  The adapter returns a single part whose `inline_data`
payload is the base64 text string s = QUJD: the run writes exactly one file at
the derived path, but its content is the base64-decoding 65 66 67 (ASCII ABC),
not the byte sequence of the payload the adapter returned (81 85 74 68) — so
the claim that the file contains exactly the bytes returned by the adapter
fails at this input. -/
theorem c4_counterexample :
    fileWrites (incity_generate_task ("/w") ("k")
        ⟨Except.ok (), true, Except.ok [⟨some (InlineVal.strVal ("QUJD")), false, none⟩], true⟩
        ("f.png") ("d")).events =
      [(("/w/output_incity/f.png"), [65, 66, 67])] ∧
    ("QUJD").data.map Char.toNat ≠ [65, 66, 67] :=
  ⟨by decide, by decide⟩

/-- C4 (amended).  For every task whose adapter call succeeds with image data
that the unwrapping loop manages to persist, at least one file is written,
every write of the run targets the single derived path
`<cwd>/<per-app output dir>/<filename>`, and each written byte sequence is the
task's decoded payload — a raw byte payload unchanged, the base64-decoding of a
text payload, or the serialization produced by the part's `as_image` accessor
(not necessarily the adapter's bytes verbatim, as the counterexample forces). -/
theorem c4_amended_success_writes (cwd api f d : String) (parts : List RespPart)
    (evs1 evs2 : List Event)
    (h1 : processParts true (cwd ++ "/" ++ ("output_incity") ++ "/" ++ f) parts false =
      .done evs1 true)
    (h2 : processParts true (cwd ++ "/" ++ ("output_lyon_gemini3") ++ "/" ++ f) parts false =
      .done evs2 true) :
    (fileWrites (incity_generate_task cwd api ⟨.ok (), true, .ok parts, true⟩ f d).events ≠ [] ∧
     ∀ w ∈ fileWrites (incity_generate_task cwd api ⟨.ok (), true, .ok parts, true⟩ f d).events,
       w.1 = cwd ++ "/" ++ ("output_incity") ++ "/" ++ f ∧
       ∃ prt ∈ parts, w.2 ∈ partPayloads prt) ∧
    (fileWrites (lyon_generate_task cwd api ⟨.ok (), true, .ok parts, true⟩ f d).events ≠ [] ∧
     ∀ w ∈ fileWrites (lyon_generate_task cwd api ⟨.ok (), true, .ok parts, true⟩ f d).events,
       w.1 = cwd ++ "/" ++ ("output_lyon_gemini3") ++ "/" ++ f ∧
       ∃ prt ∈ parts, w.2 ∈ partPayloads prt) :=
  ⟨generate_task_success_writes incityCfg cwd api f d parts evs1 h1,
   generate_task_success_writes lyonCfg cwd api f d parts evs2 h2⟩

/-- C4 witness: the amended theorem at a concrete single-part response carrying
the raw byte payload 9 9. -/
theorem c4_amended_success_writes_witness :
    (fileWrites (incity_generate_task ("/w") ("k")
        ⟨.ok (), true, .ok [⟨some (InlineVal.bytesVal [9, 9]), false, none⟩], true⟩
        ("f.png") ("d")).events ≠ [] ∧
     ∀ w ∈ fileWrites (incity_generate_task ("/w") ("k")
        ⟨.ok (), true, .ok [⟨some (InlineVal.bytesVal [9, 9]), false, none⟩], true⟩
        ("f.png") ("d")).events,
       w.1 = ("/w") ++ "/" ++ ("output_incity") ++ "/" ++ ("f.png") ∧
       ∃ prt ∈ [(⟨some (InlineVal.bytesVal [9, 9]), false, none⟩ : RespPart)],
         w.2 ∈ partPayloads prt) ∧
    (fileWrites (lyon_generate_task ("/w") ("k")
        ⟨.ok (), true, .ok [⟨some (InlineVal.bytesVal [9, 9]), false, none⟩], true⟩
        ("f.png") ("d")).events ≠ [] ∧
     ∀ w ∈ fileWrites (lyon_generate_task ("/w") ("k")
        ⟨.ok (), true, .ok [⟨some (InlineVal.bytesVal [9, 9]), false, none⟩], true⟩
        ("f.png") ("d")).events,
       w.1 = ("/w") ++ "/" ++ ("output_lyon_gemini3") ++ "/" ++ ("f.png") ∧
       ∃ prt ∈ [(⟨some (InlineVal.bytesVal [9, 9]), false, none⟩ : RespPart)],
         w.2 ∈ partPayloads prt) :=
  c4_amended_success_writes ("/w") ("k") ("f.png") ("d")
    [⟨some (InlineVal.bytesVal [9, 9]), false, none⟩]
    [Event.fileWrite ("/w/output_incity/f.png") [9, 9]]
    [Event.fileWrite ("/w/output_lyon_gemini3/f.png") [9, 9]]
    (by decide) (by decide)

/- ### C5: failure runs write nothing; what the failure log lines contain -/

/-- Whether `nd` occurs at the head of `l`. -/
def leadsWith : List Char → List Char → Bool
  | [], _ => true
  | _ :: _, [] => false
  | a :: as, b :: bs => a == b && leadsWith as bs

/-- Whether `nd` occurs contiguously anywhere in the second list. -/
def listSubB (nd : List Char) : List Char → Bool
  | [] => leadsWith nd []
  | c :: cs => leadsWith nd (c :: cs) || listSubB nd cs

/-- Executable substring test on strings. -/
def substrB (needle hay : String) : Bool :=
  listSubB needle.data hay.data

/-- Trace of a run whose generation call raises: the start log, the directory
creation, the adapter call, and a single error log holding the exception text. -/
theorem generate_task_adapter_error (cfg : AppCfg) (cwd api f d e : String) (wk : Bool) :
    (generate_task cfg cwd api ⟨.ok (), true, .error e, wk⟩ f d).events =
      [Event.elog (cfg.log_start f), Event.mkdirEv (cwd ++ "/" ++ cfg.output_subdir),
       Event.adapterCall (cfg.base_prompt d), Event.elog (cfg.log_err e)] := by
  rw [generate_task]
  rfl

/-- Trace of a run whose generation call returns no part carrying image data:
start log, directory creation, adapter call, and the single no-image log. -/
theorem generate_task_no_image (cfg : AppCfg) (cwd api f d : String) (wk : Bool)
    (parts : List RespPart) (hparts : parts.all (fun p => p.inline_data.isNone) = true) :
    (generate_task cfg cwd api ⟨.ok (), true, .ok parts, wk⟩ f d).events =
      [Event.elog (cfg.log_start f), Event.mkdirEv (cwd ++ "/" ++ cfg.output_subdir),
       Event.adapterCall (cfg.base_prompt d), Event.elog (cfg.log_no_image f)] := by
  have hpp := processParts_no_inline wk (cwd ++ "/" ++ cfg.output_subdir ++ "/" ++ f)
    parts hparts false
  rw [generate_task]
  simp only [hpp]
  rfl

/-- C5 counterexample.  For the incity task f.png whose adapter call raises
with message boom, the run writes no file and emits exactly two log lines —
the progress line (holding the filename but no failure description) and the
error line (holding the description but not the filename).  No single log
entry references the filename together with the failure description, so the
claimed exactly one such entry fails at this input. -/
theorem c5_counterexample :
    fileWrites (incity_generate_task ("/w") ("k")
        ⟨Except.ok (), true, Except.error ("boom"), true⟩ ("f.png") ("d")).events = [] ∧
    logMsgs (incity_generate_task ("/w") ("k")
        ⟨Except.ok (), true, Except.error ("boom"), true⟩ ("f.png") ("d")).events =
      [("Génération: f.png..."), ("ERREUR: boom")] ∧
    ((logMsgs (incity_generate_task ("/w") ("k")
        ⟨Except.ok (), true, Except.error ("boom"), true⟩ ("f.png") ("d")).events).filter
      (fun m => substrB ("f.png") m && substrB ("boom") m)).length = 0 :=
  ⟨by decide, by decide, by decide⟩

/-- C5 (amended).  A task whose adapter call raises, or whose response carries
no image data, writes zero files and emits exactly one terminal log entry
describing the failure (after the fixed progress line).  That entry holds the
filename only in the incity no-image case; the exception logs of both apps hold
only the error text, and the lyon no-image log holds neither filename nor
error detail. -/
theorem c5_amended_failure_runs (cwd api f d e : String) (wk : Bool)
    (parts : List RespPart)
    (hparts : parts.all (fun p => p.inline_data.isNone) = true) :
    (fileWrites (incity_generate_task cwd api ⟨.ok (), true, .error e, wk⟩ f d).events = [] ∧
     logMsgs (incity_generate_task cwd api ⟨.ok (), true, .error e, wk⟩ f d).events =
       [("Génération: ") ++ f ++ ("..."), ("ERREUR: ") ++ e]) ∧
    (fileWrites (incity_generate_task cwd api ⟨.ok (), true, .ok parts, wk⟩ f d).events = [] ∧
     logMsgs (incity_generate_task cwd api ⟨.ok (), true, .ok parts, wk⟩ f d).events =
       [("Génération: ") ++ f ++ ("..."), ("Pas d\x27image retournée pour ") ++ f]) ∧
    (fileWrites (lyon_generate_task cwd api ⟨.ok (), true, .error e, wk⟩ f d).events = [] ∧
     logMsgs (lyon_generate_task cwd api ⟨.ok (), true, .error e, wk⟩ f d).events =
       [("⏳ Gemini 3 Pro travaille sur : ") ++ f ++ ("..."), ("❌ ERREUR API : ") ++ e]) ∧
    (fileWrites (lyon_generate_task cwd api ⟨.ok (), true, .ok parts, wk⟩ f d).events = [] ∧
     logMsgs (lyon_generate_task cwd api ⟨.ok (), true, .ok parts, wk⟩ f d).events =
       [("⏳ Gemini 3 Pro travaille sur : ") ++ f ++ ("..."),
        ("⚠️ API a répondu mais pas d\x27image. Vérifiez la console.")]) := by
  refine ⟨?_, ?_, ?_, ?_⟩
  · rw [show incity_generate_task = generate_task incityCfg from rfl,
      generate_task_adapter_error incityCfg cwd api f d e wk]
    exact ⟨by simp [fileWrites], by simp [logMsgs, incityCfg]⟩
  · rw [show incity_generate_task = generate_task incityCfg from rfl,
      generate_task_no_image incityCfg cwd api f d wk parts hparts]
    exact ⟨by simp [fileWrites], by simp [logMsgs, incityCfg]⟩
  · rw [show lyon_generate_task = generate_task lyonCfg from rfl,
      generate_task_adapter_error lyonCfg cwd api f d e wk]
    exact ⟨by simp [fileWrites], by simp [logMsgs, lyonCfg]⟩
  · rw [show lyon_generate_task = generate_task lyonCfg from rfl,
      generate_task_no_image lyonCfg cwd api f d wk parts hparts]
    exact ⟨by simp [fileWrites], by simp [logMsgs, lyonCfg]⟩

/-- C5 witness: the amended theorem at a concrete task and a one-part response
with no inline data. -/
theorem c5_amended_failure_runs_witness :
    (fileWrites (incity_generate_task ("/w") ("k") ⟨.ok (), true, .error ("boom"), true⟩
        ("f.png") ("d")).events = [] ∧
     logMsgs (incity_generate_task ("/w") ("k") ⟨.ok (), true, .error ("boom"), true⟩
        ("f.png") ("d")).events =
       [("Génération: ") ++ ("f.png") ++ ("..."), ("ERREUR: ") ++ ("boom")]) ∧
    (fileWrites (incity_generate_task ("/w") ("k")
        ⟨.ok (), true, .ok [⟨none, true, none⟩], true⟩ ("f.png") ("d")).events = [] ∧
     logMsgs (incity_generate_task ("/w") ("k")
        ⟨.ok (), true, .ok [⟨none, true, none⟩], true⟩ ("f.png") ("d")).events =
       [("Génération: ") ++ ("f.png") ++ ("..."),
        ("Pas d\x27image retournée pour ") ++ ("f.png")]) ∧
    (fileWrites (lyon_generate_task ("/w") ("k") ⟨.ok (), true, .error ("boom"), true⟩
        ("f.png") ("d")).events = [] ∧
     logMsgs (lyon_generate_task ("/w") ("k") ⟨.ok (), true, .error ("boom"), true⟩
        ("f.png") ("d")).events =
       [("⏳ Gemini 3 Pro travaille sur : ") ++ ("f.png") ++ ("..."),
        ("❌ ERREUR API : ") ++ ("boom")]) ∧
    (fileWrites (lyon_generate_task ("/w") ("k")
        ⟨.ok (), true, .ok [⟨none, true, none⟩], true⟩ ("f.png") ("d")).events = [] ∧
     logMsgs (lyon_generate_task ("/w") ("k")
        ⟨.ok (), true, .ok [⟨none, true, none⟩], true⟩ ("f.png") ("d")).events =
       [("⏳ Gemini 3 Pro travaille sur : ") ++ ("f.png") ++ ("..."),
        ("⚠️ API a répondu mais pas d\x27image. Vérifiez la console.")]) :=
  c5_amended_failure_runs ("/w") ("k") ("f.png") ("d") ("boom") true
    [⟨none, true, none⟩] (by decide)

/- ### C6: does the background task ever raise past its boundary? -/

/-- C6 counterexample.  With a directory-creation failure — `os.makedirs` sits
outside both `try` blocks — the incity background task escapes with an
exception instead of converting the failure into a log entry. -/
theorem c6_counterexample :
    (incity_generate_task ("/w") ("k") ⟨Except.ok (), false, Except.ok [], true⟩
        ("f.png") ("d")).isCompleted = false ∧
    (incity_generate_task ("/w") ("k") ⟨Except.ok (), false, Except.ok [], true⟩
        ("f.png") ("d")) =
      TaskResult.raised [Event.elog ("Génération: f.png...")]
        ("makedirs failed: /w/output_incity") :=
  ⟨by decide, by decide⟩

/-- Generic completion lemma: when directory creation succeeds, every other
failure (client construction, the generation call, base64 decoding, the raw
write) is caught inside `generate_task` and turned into a log entry. -/
theorem generate_task_completes (cfg : AppCfg) (cwd api : String) (env : GenEnv)
    (f d : String) (h : env.mkdir_ok = true) :
    (generate_task cfg cwd api env f d).isCompleted = true := by
  obtain ⟨cr, mk, ar, wk⟩ := env
  simp only at h
  subst h
  rw [generate_task]
  cases cr with
  | error e => rfl
  | ok u =>
    cases ar with
    | error e => rfl
    | ok parts =>
      cases hpp : processParts wk (cwd ++ "/" ++ cfg.output_subdir ++ "/" ++ f) parts false with
      | done evs saved => simp only [hpp]; rfl
      | exn evs e => simp only [hpp]; rfl

/-- C6 (amended).  The background task never raises past its own boundary
except at directory creation: whenever `os.makedirs` succeeds, both apps' task
functions return normally for every client, adapter, decode and write outcome,
converting each failure into a log entry — but a directory-creation failure
escapes (as the counterexample shows), because the `makedirs` call sits outside
both `try` blocks. -/
theorem c6_amended_no_raise_past_mkdir (cwd api : String) (env : GenEnv)
    (f d : String) (h : env.mkdir_ok = true) :
    (incity_generate_task cwd api env f d).isCompleted = true ∧
    (lyon_generate_task cwd api env f d).isCompleted = true :=
  ⟨generate_task_completes incityCfg cwd api env f d h,
   generate_task_completes lyonCfg cwd api env f d h⟩

/-- C6 witness: the amended theorem at a concrete environment whose adapter
call raises but whose directory creation succeeds. -/
theorem c6_amended_no_raise_past_mkdir_witness :
    (incity_generate_task ("/w") ("k") ⟨Except.ok (), true, Except.error ("boom"), true⟩
        ("f.png") ("d")).isCompleted = true ∧
    (lyon_generate_task ("/w") ("k") ⟨Except.ok (), true, Except.error ("boom"), true⟩
        ("f.png") ("d")).isCompleted = true :=
  c6_amended_no_raise_past_mkdir ("/w") ("k")
    ⟨Except.ok (), true, Except.error ("boom"), true⟩ ("f.png") ("d") rfl

/- ### C9: directory creation relative to the adapter call -/

/-- C9 counterexample.  A run whose client construction fails returns before
`os.makedirs` is reached: no directory-creation effect occurs in the trace, so
after this task run the output directory need not exist. -/
theorem c9_counterexample :
    (incity_generate_task ("/w") ("k")
        ⟨Except.error ("invalid key"), true, Except.ok [], true⟩ ("f.png") ("d")).events =
      [Event.elog ("Erreur Client: invalid key")] ∧
    (((incity_generate_task ("/w") ("k")
        ⟨Except.error ("invalid key"), true, Except.ok [], true⟩ ("f.png") ("d")).events).filter
      (fun ev => match ev with
        | Event.mkdirEv _ => true
        | _ => false)).length = 0 :=
  ⟨by decide, by decide⟩

/-- Generic ordering lemma: once client construction succeeds and `makedirs`
does not fail, the trace starts with the progress log, then the directory
creation, then the adapter call — whatever the adapter outcome is. -/
theorem generate_task_mkdir_before_adapter (cfg : AppCfg) (cwd api : String)
    (env : GenEnv) (f d : String) (h1 : env.client_result = Except.ok ())
    (h2 : env.mkdir_ok = true) :
    ∃ rest, (generate_task cfg cwd api env f d).events =
      Event.elog (cfg.log_start f) :: Event.mkdirEv (cwd ++ "/" ++ cfg.output_subdir) ::
        Event.adapterCall (cfg.base_prompt d) :: rest := by
  obtain ⟨cr, mk, ar, wk⟩ := env
  simp only at h1 h2
  subst h1
  subst h2
  rw [generate_task]
  cases ar with
  | error e => exact ⟨[Event.elog (cfg.log_err e)], rfl⟩
  | ok parts =>
    cases hpp : processParts wk (cwd ++ "/" ++ cfg.output_subdir ++ "/" ++ f) parts false with
    | done evs saved =>
      refine ⟨evs ++ [Event.elog (if saved then cfg.log_ok f else cfg.log_no_image f)], ?_⟩
      simp only [hpp]
      rfl
    | exn evs e =>
      refine ⟨evs ++ [Event.elog (cfg.log_err e)], ?_⟩
      simp only [hpp]
      rfl

/-- C9 (amended).  In every run of either app's background task that gets past
client construction, and in which `makedirs` does not itself fail, the
directory-creation effect happens before the adapter is invoked, and it is in
the trace of every such run — including runs whose adapter call raises or
returns no image; no effect of the model ever removes the directory.  (A run
whose client construction fails returns first, as the counterexample shows.) -/
theorem c9_amended_mkdir_precedes_adapter (cwd api : String) (env : GenEnv)
    (f d : String) (h1 : env.client_result = Except.ok ())
    (h2 : env.mkdir_ok = true) :
    (∃ rest, (incity_generate_task cwd api env f d).events =
      Event.elog (("Génération: ") ++ f ++ ("...")) ::
        Event.mkdirEv (cwd ++ "/" ++ ("output_incity")) ::
        Event.adapterCall (incity_base_prompt d) :: rest) ∧
    (∃ rest, (lyon_generate_task cwd api env f d).events =
      Event.elog (("⏳ Gemini 3 Pro travaille sur : ") ++ f ++ ("...")) ::
        Event.mkdirEv (cwd ++ "/" ++ ("output_lyon_gemini3")) ::
        Event.adapterCall (lyon_base_prompt d) :: rest) :=
  ⟨generate_task_mkdir_before_adapter incityCfg cwd api env f d h1 h2,
   generate_task_mkdir_before_adapter lyonCfg cwd api env f d h1 h2⟩

/-- C9 witness: the amended theorem at a concrete environment whose adapter
call raises. -/
theorem c9_amended_mkdir_precedes_adapter_witness :
    (∃ rest, (incity_generate_task ("/w") ("k")
        ⟨Except.ok (), true, Except.error ("boom"), true⟩ ("f.png") ("d")).events =
      Event.elog (("Génération: ") ++ ("f.png") ++ ("...")) ::
        Event.mkdirEv (("/w") ++ "/" ++ ("output_incity")) ::
        Event.adapterCall (incity_base_prompt ("d")) :: rest) ∧
    (∃ rest, (lyon_generate_task ("/w") ("k")
        ⟨Except.ok (), true, Except.error ("boom"), true⟩ ("f.png") ("d")).events =
      Event.elog (("⏳ Gemini 3 Pro travaille sur : ") ++ ("f.png") ++ ("...")) ::
        Event.mkdirEv (("/w") ++ "/" ++ ("output_lyon_gemini3")) ::
        Event.adapterCall (lyon_base_prompt ("d")) :: rest) :=
  c9_amended_mkdir_precedes_adapter ("/w") ("k")
    ⟨Except.ok (), true, Except.error ("boom"), true⟩ ("f.png") ("d") rfl rfl

/- ### C10: the raw-save fallback path -/

/-- Generic raw-fallback lemma: for a single-part response whose convenience
accessor is unavailable or fails (`as_image_result = none`), a successful run
writes exactly one file at the derived path containing `raw_decode` of the
inline payload. -/
theorem generate_task_single_raw (cfg : AppCfg) (cwd api f d : String) (hi : Bool)
    (v : InlineVal) (bts : List Nat) (hd : raw_decode v = some bts) :
    fileWrites (generate_task cfg cwd api
        ⟨.ok (), true, .ok [⟨some v, hi, none⟩], true⟩ f d).events =
      [(cwd ++ "/" ++ cfg.output_subdir ++ "/" ++ f, bts)] := by
  have hpp : processParts true (cwd ++ "/" ++ cfg.output_subdir ++ "/" ++ f)
      [⟨some v, hi, none⟩] false =
      .done [Event.fileWrite (cwd ++ "/" ++ cfg.output_subdir ++ "/" ++ f) bts] true := by
    rw [processParts]
    simp only [ite_self, hd]
    rfl
  rw [generate_task]
  simp only [hpp]
  simp [fileWrites, TaskResult.events]

/-- C10. In the raw-save fallback path — a part whose `as_image` accessor is
unavailable (`has_as_image = false`) or raises (`as_image_result = none`,
covering both, with `hi` ranging over both truth values) — a text payload is
base64-decoded before being written and a byte payload is written unchanged,
in both apps. -/
theorem c10_raw_fallback_decodes (cwd api f d : String) (hi : Bool) (s : String)
    (bs b : List Nat) (hdec : base64Decode s = some b) :
    fileWrites (incity_generate_task cwd api
        ⟨.ok (), true, .ok [⟨some (InlineVal.strVal s), hi, none⟩], true⟩ f d).events =
      [(cwd ++ "/" ++ ("output_incity") ++ "/" ++ f, b)] ∧
    fileWrites (incity_generate_task cwd api
        ⟨.ok (), true, .ok [⟨some (InlineVal.bytesVal bs), hi, none⟩], true⟩ f d).events =
      [(cwd ++ "/" ++ ("output_incity") ++ "/" ++ f, bs)] ∧
    fileWrites (lyon_generate_task cwd api
        ⟨.ok (), true, .ok [⟨some (InlineVal.strVal s), hi, none⟩], true⟩ f d).events =
      [(cwd ++ "/" ++ ("output_lyon_gemini3") ++ "/" ++ f, b)] ∧
    fileWrites (lyon_generate_task cwd api
        ⟨.ok (), true, .ok [⟨some (InlineVal.bytesVal bs), hi, none⟩], true⟩ f d).events =
      [(cwd ++ "/" ++ ("output_lyon_gemini3") ++ "/" ++ f, bs)] :=
  ⟨generate_task_single_raw incityCfg cwd api f d hi (InlineVal.strVal s) b
      (by simpa [raw_decode] using hdec),
   generate_task_single_raw incityCfg cwd api f d hi (InlineVal.bytesVal bs) bs rfl,
   generate_task_single_raw lyonCfg cwd api f d hi (InlineVal.strVal s) b
      (by simpa [raw_decode] using hdec),
   generate_task_single_raw lyonCfg cwd api f d hi (InlineVal.bytesVal bs) bs rfl⟩

/-- C10 witness: the fallback theorem at the base64 text QUJD (decoding to
65 66 67) and the raw byte payload 1 2 3. -/
theorem c10_raw_fallback_decodes_witness :
    fileWrites (incity_generate_task ("/w") ("k")
        ⟨.ok (), true, .ok [⟨some (InlineVal.strVal ("QUJD")), false, none⟩], true⟩
        ("f.png") ("d")).events =
      [(("/w") ++ "/" ++ ("output_incity") ++ "/" ++ ("f.png"), [65, 66, 67])] ∧
    fileWrites (incity_generate_task ("/w") ("k")
        ⟨.ok (), true, .ok [⟨some (InlineVal.bytesVal [1, 2, 3]), false, none⟩], true⟩
        ("f.png") ("d")).events =
      [(("/w") ++ "/" ++ ("output_incity") ++ "/" ++ ("f.png"), [1, 2, 3])] ∧
    fileWrites (lyon_generate_task ("/w") ("k")
        ⟨.ok (), true, .ok [⟨some (InlineVal.strVal ("QUJD")), false, none⟩], true⟩
        ("f.png") ("d")).events =
      [(("/w") ++ "/" ++ ("output_lyon_gemini3") ++ "/" ++ ("f.png"), [65, 66, 67])] ∧
    fileWrites (lyon_generate_task ("/w") ("k")
        ⟨.ok (), true, .ok [⟨some (InlineVal.bytesVal [1, 2, 3]), false, none⟩], true⟩
        ("f.png") ("d")).events =
      [(("/w") ++ "/" ++ ("output_lyon_gemini3") ++ "/" ++ ("f.png"), [1, 2, 3])] :=
  c10_raw_fallback_decodes ("/w") ("k") ("f.png") ("d") false ("QUJD") [1, 2, 3]
    [65, 66, 67] (by decide)
